import Mathlib

/-!
Shallow embedding of the three utility scripts of SeaCrewManager
(`scripts/archive/fix_readme.py`, `scripts/archive/query-balaji.py`,
`scripts/archive/upload_to_hf.py`).

Each script is modelled as a pure function from an explicit environment
(results of the external API calls, command-line arguments, interactive
input, the set of files in the working directory, the database contents)
to a record of the network calls issued, the lines printed, and the
process exit code.
-/

/-! ## Glob matching (fnmatch semantics used by the upload library)

`upload_folder` filters the files of the folder against `ignore_patterns`
with Python `fnmatch` semantics: `*` matches any sequence of characters
(including `/`), `?` matches any single character, every other character
matches itself literally.  The patterns of the script use only literal
characters and `*`. -/

def globMatchList : List Char → List Char → Bool
  | [], s => s.isEmpty
  | '*' :: ps, s => (s.tails).any fun t => globMatchList ps t
  | '?' :: _, [] => false
  | '?' :: ps, _ :: cs => globMatchList ps cs
  | _ :: _, [] => false
  | p :: ps, c :: cs => p == c && globMatchList ps cs

/-- Python's `fnmatch.fnmatch(name, pattern)` restricted to the
wildcards `*` and `?` (the only ones appearing in the script's
patterns). -/
def fnmatch (name pattern : String) : Bool :=
  globMatchList pattern.data name.data

/-- The `ignore_patterns` list passed to `api.upload_folder` in
`upload_to_hf.py`. -/
def IGNORE_PATTERNS : List String :=
  ["node_modules/*",
   "dist/*",
   ".git/*",
   ".env",
   "uploads/*",
   "baileys_auth/*",
   "*.tar.gz",
   "*.apk",
   "node_modules",
   "dist",
   ".git"]

/-- The payload of the folder upload: every file in the working
directory whose path matches none of the exclusion patterns. -/
def uploadPayload (files : List String) : List String :=
  files.filter fun f => !(IGNORE_PATTERNS.any fun p => fnmatch f p)

/-! ## Script C: `upload_to_hf.py` -/

/-- A network call issued by Script C against the hosting API. -/
inductive HfCall where
  | repoInfo : HfCall
  | createRepo : HfCall
  | uploadFolder : List String → HfCall
deriving DecidableEq

def isCreate : HfCall → Bool
  | .createRepo => true
  | _ => false

def isUpload : HfCall → Bool
  | .uploadFolder _ => true
  | _ => false

/-- `true` iff no `createRepo` call appears after any `uploadFolder`
call in the trace. -/
def noCreateAfterUpload : List HfCall → Bool
  | [] => true
  | c :: rest =>
      (if isUpload c then rest.all (fun x => !(isCreate x)) else true)
        && noCreateAfterUpload rest

/-- Environment of a run of Script C: the outcome of each external API
call (`.error e` models the call raising an exception with message `e`)
and the files present in the current working directory. -/
structure HfEnv where
  probeResult : Except String Unit
  createResult : Except String Unit
  uploadResult : Except String Unit
  files : List String

/-- Result of a run of Script C: the network calls issued in order, the
lines printed in order, and the process exit code. -/
structure RunResult where
  calls : List HfCall
  output : List String
  exitCode : Nat
deriving DecidableEq

/-- `REPO_ID = sys.argv[1] if len(sys.argv) > 2 else input(...)`.
`argv` is the full `sys.argv`, program name included; `s1` is the
interactive answer to the Space-ID prompt. -/
def resolveRepoId (argv : List String) (s1 : String) : String :=
  if argv.length > 2 then argv.getD 1 "" else s1

/-- `TOKEN = sys.argv[2] if len(sys.argv) > 2 else input(...)`. -/
def resolveToken (argv : List String) (s2 : String) : String :=
  if argv.length > 2 then argv.getD 2 "" else s2

def ERROR_LINE (e : String) : String := "\nError: " ++ e

def CREATING_MSG (repoId : String) : String :=
  "Space " ++ repoId ++ " not found. Creating it now..."

def CREATED_MSG : String := "Space created successfully!"

def STARTING_MSG (repoId : String) : String :=
  "Starting upload to " ++ repoId ++ "..."

def LIVE_MSG (repoId : String) : String :=
  "Your app will be live soon at: https://huggingface.co/spaces/" ++ repoId

/-- The tail of the run after the existence check: `api.upload_folder`
is called; on success the completion messages are printed, on exception
the outer `except` prints the error.  The function returns normally in
both cases, so the exit code is 0. -/
def finishUpload (repoId : String) (env : HfEnv)
    (calls : List HfCall) (out : List String) : RunResult :=
  match env.uploadResult with
  | .ok _ =>
      { calls := calls ++ [.uploadFolder (uploadPayload env.files)],
        output := out ++ ["\nUpload Complete!", LIVE_MSG repoId],
        exitCode := 0 }
  | .error e =>
      { calls := calls ++ [.uploadFolder (uploadPayload env.files)],
        output := out ++ [ERROR_LINE e],
        exitCode := 0 }

/-- The `upload_to_hf` function of `upload_to_hf.py`.  Mirrors the
source: argument/prompt resolution, the emptiness validation, the
`repo_info` probe whose every exception is answered by `create_repo`,
and the folder upload; the outer `try` turns any exception of
`create_repo` or `upload_folder` into a printed message and a normal
return, so every run exits 0. -/
def upload_to_hf (argv : List String) (s1 s2 : String) (env : HfEnv) :
    RunResult :=
  let repoId := resolveRepoId argv s1
  let token := resolveToken argv s2
  if repoId = "" ∨ token = "" then
    { calls := [], output := ["Error: Repo ID and Token are required."],
      exitCode := 0 }
  else
    match env.probeResult with
    | .ok _ => finishUpload repoId env [.repoInfo] [STARTING_MSG repoId]
    | .error _ =>
        match env.createResult with
        | .ok _ =>
            finishUpload repoId env [.repoInfo, .createRepo]
              [STARTING_MSG repoId, CREATING_MSG repoId, CREATED_MSG]
        | .error e =>
            { calls := [.repoInfo, .createRepo],
              output := [STARTING_MSG repoId, CREATING_MSG repoId,
                         ERROR_LINE e],
              exitCode := 0 }

/-! ## Script A: `fix_readme.py` -/

/-- The hard-coded destination of Script A. -/
def REPO_ID_A : String := "Sagar007Rana/sea-crew-manager"

/-- One `api.upload_file` call with its keyword arguments. -/
structure UploadFileCall where
  pathOrFileobj : String
  pathInRepo : String
  repoId : String
  repoType : String
deriving DecidableEq

/-- Result of a run of Script A: the upload calls issued, the lines
printed, and the final outcome (`.error e` models an uncaught exception
propagating out of the process). -/
structure ScriptARun where
  calls : List UploadFileCall
  output : List String
  outcome : Except String Unit

/-- The body of `fix_readme.py`: one print, one `upload_file` call with
`path_or_fileobj = path_in_repo = "README.md"`, then two success
prints.  There is no error handling: an exception of the upload call
propagates uncaught. -/
def fix_readme (uploadResult : Except String Unit) : ScriptARun :=
  let call : UploadFileCall :=
    { pathOrFileobj := "README.md", pathInRepo := "README.md",
      repoId := REPO_ID_A, repoType := "space" }
  match uploadResult with
  | .ok _ =>
      { calls := [call],
        output := ["Uploading README.md to fix configuration error...",
                   "✅ README.md uploaded successfully!",
                   "Check your Space at: https://huggingface.co/spaces/"
                     ++ REPO_ID_A],
        outcome := .ok () }
  | .error e =>
      { calls := [call],
        output := ["Uploading README.md to fix configuration error..."],
        outcome := .error e }

/-! ## Script B: `query-balaji.py` -/

/-- A row of the external `crew_members` table (the columns the query
touches). -/
structure CrewMember where
  id : Nat
  firstName : String
  lastName : String
  dateOfBirth : String
deriving DecidableEq

/-- A row of the external `documents` table (the columns the query
touches). -/
structure Document where
  id : Nat
  crewMemberId : Nat
  type : String
  documentNumber : String
  expiryDate : String
  issueDate : String
  issuingAuthority : String
deriving DecidableEq

/-- The database file `crew_management.db` as the two tables the query
reads. -/
structure CrewDB where
  crew_members : List CrewMember
  documents : List Document
deriving DecidableEq

/-- The rows satisfying the fixed join query:
`FROM crew_members cm JOIN documents d ON cm.id = d.crewMemberId
WHERE cm.firstName = 'VENKATARANGAN' AND d.type = 'passport'`. -/
def matchingRows (db : CrewDB) : List (CrewMember × Document) :=
  (db.crew_members.map fun cm =>
    (db.documents.filter fun d =>
        cm.id == d.crewMemberId
          && cm.firstName == "VENKATARANGAN"
          && d.type == "passport").map
      fun d => (cm, d)).flatten

def QUERY_HEADER : String := "=== VENKATARANGAN BALAJI Passport Data ===\n"

def NOT_FOUND_MSG : String := "No passport found for VENKATARANGAN BALAJI"

/-- The eight labelled lines printed for a fetched row, in source
order. -/
def rowOutput : CrewMember × Document → List String
  | (cm, d) =>
      ["Name: " ++ cm.firstName ++ " " ++ cm.lastName,
       "Date of Birth: " ++ cm.dateOfBirth,
       "---",
       "Document ID: " ++ toString d.id,
       "Passport Number: " ++ d.documentNumber,
       "Expiry Date: " ++ d.expiryDate,
       "Issue Date: " ++ d.issueDate,
       "Issuing Authority: " ++ d.issuingAuthority]

/-- Result of a run of Script B: printed lines, exit code, and the
database contents after the run (`none` when the data access failed
before a database was opened). -/
structure QueryRun where
  output : List String
  exitCode : Nat
  finalDb : Option CrewDB
deriving DecidableEq

/-- The body of `query-balaji.py`: the whole script is wrapped in one
`try`; on any data-access exception it prints `Error: ...` and calls
`sys.exit(1)`.  Otherwise it prints the banner, executes the fixed
SELECT, fetches at most one row with `fetchone()`, and prints either
the eight labelled fields or the fixed not-found message, exiting 0.
The SELECT does not modify the database, so `finalDb` is the input
database unchanged. -/
def query_balaji (dbResult : Except String CrewDB) : QueryRun :=
  match dbResult with
  | .error e =>
      { output := ["Error: " ++ e], exitCode := 1, finalDb := none }
  | .ok db =>
      match (matchingRows db).head? with
      | some row =>
          { output := QUERY_HEADER :: rowOutput row, exitCode := 0,
            finalDb := some db }
      | none =>
          { output := [QUERY_HEADER, NOT_FOUND_MSG], exitCode := 0,
            finalDb := some db }

/-- A sample crew member matching the fixed query, used to exercise the
theorems on concrete data. -/
def sampleCrewMember : CrewMember :=
  { id := 1, firstName := "VENKATARANGAN", lastName := "BALAJI",
    dateOfBirth := "1985-06-01" }

/-- A sample passport document of `sampleCrewMember`. -/
def sampleDocument : Document :=
  { id := 42, crewMemberId := 1, type := "passport",
    documentNumber := "Z1234567", expiryDate := "2030-01-01",
    issueDate := "2020-01-01", issuingAuthority := "Government of India" }

/-- A sample database with exactly one row matching the fixed query. -/
def sampleDB : CrewDB :=
  { crew_members := [sampleCrewMember], documents := [sampleDocument] }

/-! ## Helper lemmas: the shape of a Script C run in each branch -/

theorem upload_run_valid (argv : List String) (s1 s2 : String) (env : HfEnv)
    (h : ¬(resolveRepoId argv s1 = "" ∨ resolveToken argv s2 = "")) :
    upload_to_hf argv s1 s2 env =
      match env.probeResult with
      | .ok _ => finishUpload (resolveRepoId argv s1) env [.repoInfo]
          [STARTING_MSG (resolveRepoId argv s1)]
      | .error _ =>
          match env.createResult with
          | .ok _ =>
              finishUpload (resolveRepoId argv s1) env [.repoInfo, .createRepo]
                [STARTING_MSG (resolveRepoId argv s1),
                 CREATING_MSG (resolveRepoId argv s1), CREATED_MSG]
          | .error e =>
              { calls := [.repoInfo, .createRepo],
                output := [STARTING_MSG (resolveRepoId argv s1),
                           CREATING_MSG (resolveRepoId argv s1),
                           ERROR_LINE e],
                exitCode := 0 } := by
  simp only [upload_to_hf]
  rw [if_neg h]

theorem upload_run_invalid (argv : List String) (s1 s2 : String) (env : HfEnv)
    (h : resolveRepoId argv s1 = "" ∨ resolveToken argv s2 = "") :
    upload_to_hf argv s1 s2 env =
      { calls := [], output := ["Error: Repo ID and Token are required."],
        exitCode := 0 } := by
  simp only [upload_to_hf]
  rw [if_pos h]

/-! ## Claims about Script C -/

/-- C4: whenever the resolved destination identifier or credential is
the empty string, `upload_to_hf` prints the validation message and
returns before issuing any network call: the call trace is empty. -/
theorem c4_empty_args_abort (argv : List String) (s1 s2 : String)
    (env : HfEnv)
    (h : resolveRepoId argv s1 = "" ∨ resolveToken argv s2 = "") :
    (upload_to_hf argv s1 s2 env).calls = []
      ∧ (upload_to_hf argv s1 s2 env).output
          = ["Error: Repo ID and Token are required."] := by
  rw [upload_run_invalid argv s1 s2 env h]
  exact ⟨rfl, rfl⟩

theorem c4_empty_args_abort_witness :
    (upload_to_hf ["prog"] "" "sometoken"
        ⟨.ok (), .ok (), .ok (), ["app.py"]⟩).calls = []
      ∧ (upload_to_hf ["prog"] "" "sometoken"
          ⟨.ok (), .ok (), .ok (), ["app.py"]⟩).output
          = ["Error: Repo ID and Token are required."] :=
  c4_empty_args_abort ["prog"] "" "sometoken"
    ⟨.ok (), .ok (), .ok (), ["app.py"]⟩ (Or.inl rfl)

/-- C3: past validation, a probe that reports the destination absent
(raises) leads to exactly one `create_repo` call, and no create call
ever follows an upload call; a probe that reports the destination
present leads to no create call at all. -/
theorem c3_create_once_before_upload (argv : List String) (s1 s2 : String)
    (env : HfEnv)
    (h : ¬(resolveRepoId argv s1 = "" ∨ resolveToken argv s2 = "")) :
    ((∃ e, env.probeResult = .error e) →
        ((upload_to_hf argv s1 s2 env).calls.filter isCreate).length = 1
          ∧ noCreateAfterUpload (upload_to_hf argv s1 s2 env).calls = true)
      ∧ (env.probeResult = .ok () →
          ((upload_to_hf argv s1 s2 env).calls.filter isCreate).length = 0) := by
  rw [upload_run_valid argv s1 s2 env h]
  cases hp : env.probeResult with
  | ok u =>
      constructor
      · rintro ⟨e, he⟩
        cases he
      · intro _
        cases hu : env.uploadResult <;>
          simp [finishUpload, hu, isCreate, noCreateAfterUpload]
  | error e =>
      constructor
      · intro _
        cases hc : env.createResult <;> cases hu : env.uploadResult <;>
          simp [finishUpload, hu, isCreate, isUpload, noCreateAfterUpload]
      · intro hok
        cases hok

theorem c3_create_once_before_upload_witness :
    (¬(resolveRepoId ["prog", "user/space", "tok"] "" = ""
        ∨ resolveToken ["prog", "user/space", "tok"] "" = ""))
      ∧ (((upload_to_hf ["prog", "user/space", "tok"] "" ""
            ⟨.error "404", .ok (), .ok (), ["app.py"]⟩).calls.filter
              isCreate).length = 1
          ∧ noCreateAfterUpload (upload_to_hf ["prog", "user/space", "tok"]
              "" "" ⟨.error "404", .ok (), .ok (), ["app.py"]⟩).calls
            = true) :=
  ⟨by decide,
   (c3_create_once_before_upload ["prog", "user/space", "tok"] "" ""
      ⟨.error "404", .ok (), .ok (), ["app.py"]⟩ (by decide)).1
     ⟨"404", rfl⟩⟩

/-- C6: past validation, every probe exception is handled the same way
whatever its message: the run is identical for any two probe errors, a
`create_repo` call is attempted, and the run still exits 0 — the probe
exception is never re-raised as a hard failure. -/
theorem c6_probe_error_kind_irrelevant (argv : List String) (s1 s2 : String)
    (env : HfEnv) (e e' : String)
    (h : ¬(resolveRepoId argv s1 = "" ∨ resolveToken argv s2 = "")) :
    upload_to_hf argv s1 s2 { env with probeResult := .error e }
        = upload_to_hf argv s1 s2 { env with probeResult := .error e' }
      ∧ (upload_to_hf argv s1 s2
          { env with probeResult := .error e }).calls.any isCreate = true
      ∧ (upload_to_hf argv s1 s2
          { env with probeResult := .error e }).exitCode = 0 := by
  rw [upload_run_valid argv s1 s2 _ h, upload_run_valid argv s1 s2 _ h]
  cases hc : env.createResult <;> cases hu : env.uploadResult <;>
    simp [finishUpload, hc, hu, isCreate]

theorem c6_probe_error_kind_irrelevant_witness :
    upload_to_hf ["prog", "user/space", "tok"] "" ""
        ⟨.error "404 not found", .ok (), .ok (), ["app.py"]⟩
      = upload_to_hf ["prog", "user/space", "tok"] "" ""
          ⟨.error "permission denied", .ok (), .ok (), ["app.py"]⟩ :=
  (c6_probe_error_kind_irrelevant ["prog", "user/space", "tok"] "" ""
    ⟨.ok (), .ok (), .ok (), ["app.py"]⟩ "404 not found" "permission denied"
    (by decide)).1

/-- C9: every run of Script C exits 0 (the function returns normally),
and past validation a create-call exception or an upload-call exception
is caught by the outer handler and reported as a printed
`"\nError: ..."` line. -/
theorem c9_errors_caught_exit_zero (argv : List String) (s1 s2 : String)
    (env : HfEnv) :
    (upload_to_hf argv s1 s2 env).exitCode = 0
      ∧ (¬(resolveRepoId argv s1 = "" ∨ resolveToken argv s2 = "") →
          (∀ ep ec, env.probeResult = .error ep →
              env.createResult = .error ec →
              ERROR_LINE ec ∈ (upload_to_hf argv s1 s2 env).output)
            ∧ ∀ e, env.uploadResult = .error e →
                (env.probeResult = .ok () ∨ env.createResult = .ok ()) →
                ERROR_LINE e ∈ (upload_to_hf argv s1 s2 env).output) := by
  by_cases hval : resolveRepoId argv s1 = "" ∨ resolveToken argv s2 = ""
  · rw [upload_run_invalid argv s1 s2 env hval]
    exact ⟨rfl, fun hc => absurd hval hc⟩
  · rw [upload_run_valid argv s1 s2 env hval]
    cases hp : env.probeResult <;> cases hc : env.createResult <;>
      cases hu : env.uploadResult <;>
      simp [finishUpload, hp, hc, hu]

theorem c9_errors_caught_exit_zero_witness :
    (upload_to_hf ["prog", "user/space", "tok"] "" ""
        ⟨.error "probe down", .error "create failed", .ok (),
         ["app.py"]⟩).exitCode = 0
      ∧ ERROR_LINE "create failed"
          ∈ (upload_to_hf ["prog", "user/space", "tok"] "" ""
              ⟨.error "probe down", .error "create failed", .ok (),
               ["app.py"]⟩).output :=
  ⟨(c9_errors_caught_exit_zero ["prog", "user/space", "tok"] "" ""
      ⟨.error "probe down", .error "create failed", .ok (), ["app.py"]⟩).1,
   ((c9_errors_caught_exit_zero ["prog", "user/space", "tok"] "" ""
      ⟨.error "probe down", .error "create failed", .ok (), ["app.py"]⟩).2
     (by decide)).1 "probe down" "create failed" rfl rfl⟩

/-- C10: a run with exactly one command-line argument (full `sys.argv`
of length two) behaves exactly like a run with no argument: the lone
argument is ignored and both values come from the interactive
prompts. -/
theorem c10_single_arg_ignored (prog a s1 s2 : String) (env : HfEnv) :
    upload_to_hf [prog, a] s1 s2 env = upload_to_hf [prog] s1 s2 env
      ∧ resolveRepoId [prog, a] s1 = s1
      ∧ resolveToken [prog, a] s2 = s2 :=
  ⟨rfl, rfl, rfl⟩

/-! ## Claim about the upload payload (Script C exclusion patterns) -/

/-- C1: for every file set, the upload payload contains no file
matching any of the fixed exclusion patterns; in the end-to-end scenario
with exactly `app.py`, `node_modules/pkg/index.js` and `.env` in the
working directory, only `app.py` is uploaded. -/
theorem c1_exclusions_never_uploaded :
    (∀ (files : List String) (f : String), f ∈ uploadPayload files →
        ∀ p ∈ IGNORE_PATTERNS, fnmatch f p = false)
      ∧ uploadPayload ["app.py", "node_modules/pkg/index.js", ".env"]
          = ["app.py"]
      ∧ (upload_to_hf ["prog", "user/space", "tok"] "" ""
            ⟨.ok (), .ok (), .ok (),
             ["app.py", "node_modules/pkg/index.js", ".env"]⟩).calls
          = [.repoInfo, .uploadFolder ["app.py"]] := by
  refine ⟨?_, by decide, by decide⟩
  intro files f hf p hp
  have h := (List.mem_filter.mp hf).2
  rw [Bool.not_eq_true'] at h
  have h2 := List.any_eq_false.mp h p hp
  simpa using h2

theorem c1_exclusions_never_uploaded_witness :
    ("app.py" ∈ uploadPayload ["app.py", ".env"])
      ∧ (".env" ∈ IGNORE_PATTERNS)
      ∧ fnmatch "app.py" ".env" = false :=
  ⟨by decide, by decide,
   c1_exclusions_never_uploaded.1 ["app.py", ".env"] "app.py" (by decide)
     ".env" (by decide)⟩

/-! ## Claim about Script A -/

/-- C7: a successful run of Script A issues exactly one upload call, and
in it the path-in-repo equals the source file's own name `README.md`;
the output ends with the success message and the constructed viewing
URL. -/
theorem c7_readme_uploaded_under_own_name (u : Unit) :
    (fix_readme (.ok u)).calls
        = [{ pathOrFileobj := "README.md", pathInRepo := "README.md",
             repoId := REPO_ID_A, repoType := "space" }]
      ∧ ((fix_readme (.ok u)).calls.all fun c =>
            c.pathInRepo == c.pathOrFileobj) = true
      ∧ (fix_readme (.ok u)).output
          = ["Uploading README.md to fix configuration error...",
             "✅ README.md uploaded successfully!",
             "Check your Space at: https://huggingface.co/spaces/Sagar007Rana/sea-crew-manager"]
      ∧ (fix_readme (.ok u)).outcome = .ok () := by
  cases u
  exact ⟨rfl, by decide, by decide, rfl⟩

/-! ## Claims about Script B -/

/-- C2: a run of Script B on a database with zero rows matching the
fixed query prints the fixed banner followed by exactly the fixed
not-found message naming the literal search subject and exits 0; a run
in which the data access raises prints the error and exits 1. -/
theorem c2_not_found_exits_zero_error_exits_one :
    (∀ db : CrewDB, matchingRows db = [] →
        query_balaji (.ok db)
          = { output := [QUERY_HEADER, NOT_FOUND_MSG], exitCode := 0,
              finalDb := some db })
      ∧ ∀ e, query_balaji (.error e)
          = { output := ["Error: " ++ e], exitCode := 1,
              finalDb := none } := by
  constructor
  · intro db hdb
    simp [query_balaji, hdb]
  · intro e
    rfl

theorem c2_not_found_exits_zero_error_exits_one_witness :
    matchingRows ⟨[], []⟩ = []
      ∧ query_balaji (.ok ⟨[], []⟩)
          = { output := [QUERY_HEADER, NOT_FOUND_MSG], exitCode := 0,
              finalDb := some ⟨[], []⟩ } :=
  ⟨rfl, c2_not_found_exits_zero_error_exits_one.1 ⟨[], []⟩ rfl⟩

/-- C5: a run of Script B on a database with exactly one row matching
the fixed query prints the banner followed by the eight labelled fields
in the fixed source order, and exits 0. -/
theorem c5_single_row_prints_eight_fields (db : CrewDB) (cm : CrewMember)
    (d : Document) (h : matchingRows db = [(cm, d)]) :
    (query_balaji (.ok db)).output
        = [QUERY_HEADER,
           "Name: " ++ cm.firstName ++ " " ++ cm.lastName,
           "Date of Birth: " ++ cm.dateOfBirth,
           "---",
           "Document ID: " ++ toString d.id,
           "Passport Number: " ++ d.documentNumber,
           "Expiry Date: " ++ d.expiryDate,
           "Issue Date: " ++ d.issueDate,
           "Issuing Authority: " ++ d.issuingAuthority]
      ∧ (query_balaji (.ok db)).exitCode = 0 := by
  simp [query_balaji, h, rowOutput]

theorem c5_single_row_prints_eight_fields_witness :
    matchingRows sampleDB = [(sampleCrewMember, sampleDocument)]
      ∧ (query_balaji (.ok sampleDB)).exitCode = 0 :=
  ⟨by decide,
   (c5_single_row_prints_eight_fields sampleDB sampleCrewMember
      sampleDocument (by decide)).2⟩

/-- C8: Script B never writes to the database (the database after a run
is the input database unchanged), and at most one row is fetched: the
whole printed output and the exit code depend only on the first row of
the query result. -/
theorem c8_read_only_single_fetch (db db' : CrewDB)
    (h : (matchingRows db).head? = (matchingRows db').head?) :
    (query_balaji (.ok db)).finalDb = some db
      ∧ (query_balaji (.ok db)).output = (query_balaji (.ok db')).output
      ∧ (query_balaji (.ok db)).exitCode
          = (query_balaji (.ok db')).exitCode := by
  cases hm : (matchingRows db).head? with
  | none =>
      have hm' : (matchingRows db').head? = none := by rw [← h, hm]
      simp [query_balaji, hm, hm']
  | some row =>
      have hm' : (matchingRows db').head? = some row := by rw [← h, hm]
      simp [query_balaji, hm, hm']

theorem c8_read_only_single_fetch_witness :
    (matchingRows ⟨[], []⟩).head?
        = (matchingRows ⟨[⟨1, "ALICE", "SMITH", "1990-01-01"⟩], []⟩).head?
      ∧ (query_balaji (.ok ⟨[], []⟩)).finalDb = some ⟨[], []⟩
      ∧ (query_balaji (.ok ⟨[], []⟩)).output
          = (query_balaji
              (.ok ⟨[⟨1, "ALICE", "SMITH", "1990-01-01"⟩], []⟩)).output :=
  ⟨by decide,
   (c8_read_only_single_fetch ⟨[], []⟩
      ⟨[⟨1, "ALICE", "SMITH", "1990-01-01"⟩], []⟩ (by decide)).1,
   (c8_read_only_single_fetch ⟨[], []⟩
      ⟨[⟨1, "ALICE", "SMITH", "1990-01-01"⟩], []⟩ (by decide)).2.1⟩
